import Mathlib

/-
Verification of the gate progression engine of this repository
(backend/app.py and backend/ai_engine.py): a shallow embedding of the
Progression State (GameState), the Attempt Ledger (PuzzleLog, QuizLog)
and the engine operations (solve_puzzle, get_puzzle_data, reboot_puzzle,
start_quiz, submit_quiz, reset_progress), with theorems about the
advancement rule, reachability invariants, scoring, idempotence and the
frame conditions of reset.

Database tables are embedded as lists of rows inside a `Store`;
SQLAlchemy queries (`filter_by(...).first()`, `get(id)`) become
`List.find?`, `db.session.add` appends a row, mutating a fetched row and
committing becomes an in-place functional update of the first matching
row, and `db.session.delete` removes that row. Machine integers of the
database are arbitrary-precision in Python, so they are embedded as
`Int`. An uncaught Python exception (surfaced by the global 500 handler)
is an explicit error constructor, with no store mutation committed.
-/

namespace VibeInGaming

/-- Progression State row of the `game_state` table: the per-user pointer
`current_step` (the spec calls it `current_gate`) and `current_cycle`. -/
structure GameState where
  current_step : Int
  current_cycle : Int
deriving DecidableEq

/-- Payload of the Tower of Hanoi puzzle built by
`PuzzleEngine.generate_puzzle_data` in backend/ai_engine.py. -/
structure HanoiData where
  title : String
  description : String
  disks : Int
  min_moves : Int
  rods : Int
deriving DecidableEq

/-- Dynamic dict stored in `PuzzleLog.puzzle_data`: either the empty dict
`{}` (written by `solve_puzzle` when it lazily creates a log) or the
Tower of Hanoi payload written by `get_puzzle_data`. -/
inductive PuzzleData where
  | empty
  | hanoi (d : HanoiData)
deriving DecidableEq

/-- Puzzle Attempt row of the `puzzle_log` table. -/
structure PuzzleLog where
  user_id : Int
  cycle : Int
  step : Int
  puzzle_type : String
  puzzle_data : PuzzleData
  solved : Bool
deriving DecidableEq

/-- Quiz question dict: the correct answer is stored under the key
`correct_index` (PuzzleEngine path) or the key `answer` (QuizGenerator
path); a missing key reads as `none` (Python `dict.get` gives `None`). -/
structure Question where
  question : String
  options : List String
  correct_index : Option Int
  answer : Option Int
deriving DecidableEq

/-- Quiz Attempt row of the `quiz_log` table, keyed by a generated id. -/
structure QuizLog where
  id : Int
  user_id : Int
  cycle : Int
  questions : List Question
  score : Int
deriving DecidableEq

/-- The persisted state the engine operates on: the three tables and the
next value of the quiz primary key. -/
structure Store where
  states : List (Int × GameState)
  puzzle_logs : List PuzzleLog
  quiz_logs : List QuizLog
  next_quiz_id : Int
deriving DecidableEq

/-- Update the first element satisfying `p` (the row a `.first()` query
returned and the handler then mutated and committed). -/
def updateFirst {α : Type} (p : α → Bool) (f : α → α) : List α → List α
  | [] => []
  | x :: xs => if p x then f x :: xs else x :: updateFirst p f xs

/-- GameState.query.filter_by(user_id=uid).first() -/
def findState (st : Store) (uid : Int) : Option GameState :=
  (st.states.find? (fun p => p.1 == uid)).map Prod.snd

/-- Key predicate of PuzzleLog.query.filter_by(user_id, cycle, step). -/
def puzzleKey (uid cycle step : Int) (l : PuzzleLog) : Bool :=
  l.user_id == uid && l.cycle == cycle && l.step == step

/-- PuzzleLog.query.filter_by(user_id=uid, cycle=cycle, step=step).first() -/
def findPuzzleLog (st : Store) (uid cycle step : Int) : Option PuzzleLog :=
  st.puzzle_logs.find? (puzzleKey uid cycle step)

/-- QuizLog.query.get(quiz_id) -/
def findQuizLog (st : Store) (quiz_id : Int) : Option QuizLog :=
  st.quiz_logs.find? (fun q => q.id == quiz_id)

/-- Modelled from the spec: `backend/models.py` is not among the source
files (only its importers are), so the column defaults used when
`GameState(user_id=user_id)` is constructed are taken from the spec,
Progression State: "default `current_gate=1, current_cycle=1`". -/
def defaultGameState : GameState :=
  { current_step := 1, current_cycle := 1 }

/-- get_or_create_game_state of backend/app.py: return the existing row,
or add a row with the model defaults and return it. -/
def get_or_create_game_state (st : Store) (uid : Int) : GameState × Store :=
  match findState st uid with
  | some s => (s, st)
  | none =>
      (defaultGameState,
       { st with states := st.states ++ [(uid, defaultGameState)] })

/-- PuzzleEngine.generate_puzzle_data of backend/ai_engine.py: Tower of
Hanoi data for every gate, `disks = gate_num + 1`,
`min_moves = 2 ** disks - 1`, three rods. The `cycle` argument is unused
by the body. The exponent is taken through `Int.toNat`: the only caller
passes the route parameter `<int:step>`, which is non-negative, and for
`disks ≥ 0` the value agrees with Python `2 ** disks`. -/
def generate_puzzle_data (gate_num : Int) (cycle : Int) : String × PuzzleData :=
  let disks : Int := gate_num + 1
  let min_moves : Int := 2 ^ disks.toNat - 1
  ("tower-of-hanoi",
   PuzzleData.hanoi
     { title := "GATE " ++ toString gate_num ++ ": TOWER OF HANOI (L"
         ++ toString gate_num ++ ")"
       description := "Move the stack to the last rod. " ++ toString disks
         ++ " disks. " ++ toString min_moves ++ " move minimum."
       disks := disks
       min_moves := min_moves
       rods := 3 })

/-- Result of GET /api/puzzle/<int:step> (get_puzzle_data). -/
inductive PuzzleResult where
  | gateLocked
  | ok (puzzle_data : PuzzleData) (puzzle_type : String) (step : Int)
deriving DecidableEq

/-- get_puzzle_data of backend/app.py: refuse with "Gate Locked" when
`step > state.current_step`; otherwise return the stored log, lazily
creating it from `generate_puzzle_data` on first read. -/
def get_puzzle_data (st : Store) (uid : Int) (step : Int) : PuzzleResult × Store :=
  let r := get_or_create_game_state st uid
  let state := r.1
  let st1 := r.2
  if step > state.current_step then
    (PuzzleResult.gateLocked, st1)
  else
    match findPuzzleLog st1 uid state.current_cycle step with
    | some log => (PuzzleResult.ok log.puzzle_data log.puzzle_type step, st1)
    | none =>
        let params := generate_puzzle_data step state.current_cycle
        let log : PuzzleLog :=
          { user_id := uid, cycle := state.current_cycle, step := step,
            puzzle_type := params.1, puzzle_data := params.2, solved := false }
        (PuzzleResult.ok log.puzzle_data log.puzzle_type step,
         { st1 with puzzle_logs := st1.puzzle_logs ++ [log] })

/-- Result of POST /api/solve_puzzle. `serverError` is the uncaught
AttributeError raised at `state.current_cycle` when the user has no
GameState row: `solve_puzzle` queries with `.first()` directly instead
of `get_or_create_game_state`, so `state` can be `None`; the global
error handler turns that into a 500 and nothing is committed. -/
inductive SolveResult where
  | serverError
  | ok (next_url : String)
deriving DecidableEq

/-- solve_puzzle of backend/app.py, after the `int(data.get('step'))`
cast has succeeded (a failed cast returns 400 with no mutation and is
outside the claims). Marks the log solved (lazily creating it with
`puzzle_type="manual_verification"` and empty `puzzle_data`), increments
`current_step` exactly when `state.current_step == step`, and computes
the next navigation target. -/
def solve_puzzle (st : Store) (uid : Int) (step : Int) : SolveResult × Store :=
  match findState st uid with
  | none => (SolveResult.serverError, st)
  | some state =>
      let logs1 :=
        match findPuzzleLog st uid state.current_cycle step with
        | some _ => st.puzzle_logs
        | none =>
            st.puzzle_logs ++
              [{ user_id := uid, cycle := state.current_cycle, step := step,
                 puzzle_type := "manual_verification",
                 puzzle_data := PuzzleData.empty, solved := false }]
      let logs2 :=
        updateFirst (puzzleKey uid state.current_cycle step)
          (fun l => { l with solved := true }) logs1
      let state' :=
        if state.current_step == step then
          { state with current_step := state.current_step + 1 }
        else state
      let states' :=
        updateFirst (fun p => p.1 == uid) (fun p => (p.1, state')) st.states
      let st2 := { st with puzzle_logs := logs2, states := states' }
      let next_seq_step := step + 1
      let next_url :=
        if next_seq_step ≤ 6 then
          "quiz_setup.html?step=" ++ toString next_seq_step
        else "game_dashboard.html"
      (SolveResult.ok next_url, st2)

/-- reset_progress of backend/app.py: set `current_step = 1` and
`current_cycle = 1` on the (lazily created) state; nothing else. -/
def reset_progress (st : Store) (uid : Int) : Store :=
  let r := get_or_create_game_state st uid
  let state := r.1
  let st1 := r.2
  let state' := { state with current_step := 1, current_cycle := 1 }
  let states' :=
    updateFirst (fun p => p.1 == uid) (fun p => (p.1, state')) st1.states
  { st1 with states := states' }

/-- The fixed fallback question set of PuzzleEngine.generate_quiz. -/
def fallback : List Question :=
  [{ question := "Which of the following is a supervised learning algorithm?"
     options := ["K-Means", "Linear Regression", "PCA", "Apriori"]
     correct_index := some 1, answer := none },
   { question := "What does CNN stand for in Deep Learning?"
     options := ["Central Neural Network", "Convolutional Neural Network",
                 "Computer Neural Node", "Cybernetic Network"]
     correct_index := some 1, answer := none },
   { question := "Which library is primary used for Deep Learning in Python?"
     options := ["Pandas", "NumPy", "TensorFlow", "Matplotlib"]
     correct_index := some 2, answer := none },
   { question := "What is the primary goal of Generative AI?"
     options := ["To classify data", "To generate new data instances",
                 "To cluster data", "To reduce dimensions"]
     correct_index := some 1, answer := none },
   { question := "In Python, which keyword is used to define a function?"
     options := ["func", "def", "definition", "function"]
     correct_index := some 1, answer := none }]

/-- PuzzleEngine.generate_quiz of backend/ai_engine.py. `ai_res = none`
covers every path on which no question list is obtained from the remote
model: missing or placeholder API key, HTTP error, timeout, a response
without a JSON array, a JSON parse failure, or any other exception (all
are caught and fall through to the fallback). When a list is obtained,
the code returns its first five entries if it has at least five, and the
fallback otherwise. -/
def generate_quiz (ai_res : Option (List Question)) : List Question :=
  match ai_res with
  | some data => if data.length ≥ 5 then data.take 5 else fallback
  | none => fallback

/-- start_quiz of backend/app.py: generate questions (difficulty and
step only shape the prompt of the remote call, abstracted into
`ai_res`), then always add a brand-new QuizLog row with `score=0` and
return its id. Modelled from the spec for the id itself:
`backend/models.py` is absent, so the primary key is embedded as the
autoincrement counter `next_quiz_id` ("persists a new Quiz Attempt ...
and returns its identifier"). -/
def start_quiz (st : Store) (uid : Int) (ai_res : Option (List Question)) :
    Int × Store :=
  let questions := generate_quiz ai_res
  let r := get_or_create_game_state st uid
  let state := r.1
  let st1 := r.2
  let new_quiz : QuizLog :=
    { id := st1.next_quiz_id, user_id := uid, cycle := state.current_cycle,
      questions := questions, score := 0 }
  (new_quiz.id,
   { st1 with quiz_logs := st1.quiz_logs ++ [new_quiz],
              next_quiz_id := st1.next_quiz_id + 1 })

/-- One scoring comparison of submit_quiz:
`correct_ans = q.get('correct_index') or q.get('answer')`, then
`user_ans == correct_ans`. Python `or` takes its right operand when the
left is `None` or `0` (both falsy), and an `int` never equals `None`. -/
def answer_matches (user_ans : Int) (q : Question) : Bool :=
  let correct_ans : Option Int :=
    match q.correct_index with
    | some v => if v == 0 then q.answer else some v
    | none => q.answer
  match correct_ans with
  | some v => user_ans == v
  | none => false

/-- The scoring loop of submit_quiz: 10 points per matching position.
`none` is the IndexError raised by `answers[i]` when the answers list is
shorter than the question list (the exception escapes, nothing is
committed). -/
def quiz_score : List Question → List Int → Option Int
  | [], _ => some 0
  | _ :: _, [] => none
  | q :: qs, a :: rest =>
      match quiz_score qs rest with
      | some s => some ((if answer_matches a q then 10 else 0) + s)
      | none => none

/-- Result of POST /api/submit_quiz. `notFound` is the
`{"success": False}` body returned when `QuizLog.query.get` finds no
row; `serverError` is an escaping IndexError. -/
inductive SubmitResult where
  | notFound
  | serverError
  | ok (passed : Bool) (score : Int) (redirect : String)
deriving DecidableEq

/-- submit_quiz of backend/app.py: look the quiz up by id only (the
owner is never compared with the caller), score it, overwrite
`quiz.score`, and answer `passed = score >= 30` with the redirect target
`target_step = data.get('step') or state.current_step` (again a falsy
`or`: an explicit step of 0 reads as absent). -/
def submit_quiz (st : Store) (uid : Int) (quiz_id : Int)
    (answers : List Int) (step : Option Int) : SubmitResult × Store :=
  match findQuizLog st quiz_id with
  | none => (SubmitResult.notFound, st)
  | some quiz =>
      match quiz_score quiz.questions answers with
      | none => (SubmitResult.serverError, st)
      | some score =>
          let quiz_logs' :=
            updateFirst (fun q => q.id == quiz_id)
              (fun q => { q with score := score }) st.quiz_logs
          let st1 := { st with quiz_logs := quiz_logs' }
          let r := get_or_create_game_state st1 uid
          let state := r.1
          let st2 := r.2
          let target_step : Int :=
            match step with
            | some v => if v == 0 then state.current_step else v
            | none => state.current_step
          let passed : Bool := decide (score ≥ 30)
          let redirect :=
            if passed then "puzzle.html?step=" ++ toString target_step
            else "quiz_setup.html?step=" ++ toString target_step
          (SubmitResult.ok passed score redirect, st2)

/-- reboot_puzzle of backend/app.py: delete the log of
`(user, current_cycle, step)` if present, to force regeneration. -/
def reboot_puzzle (st : Store) (uid : Int) (step : Int) : Store :=
  let r := get_or_create_game_state st uid
  let state := r.1
  let st1 := r.2
  match findPuzzleLog st1 uid state.current_cycle step with
  | some _ =>
      { st1 with puzzle_logs :=
          st1.puzzle_logs.eraseP (puzzleKey uid state.current_cycle step) }
  | none => st1

/-- One engine operation with its request parameters; the content
generator outcome of startQuiz is part of the event. -/
inductive Op where
  | solvePuzzle (step : Int)
  | requestPuzzle (step : Int)
  | startQuiz (ai_res : Option (List Question))
  | submitQuiz (quiz_id : Int) (answers : List Int) (step : Option Int)
  | rebootPuzzle (step : Int)
  | resetProgress

/-- The store after one operation of user `uid` (responses dropped). -/
def apply_op (uid : Int) (st : Store) : Op → Store
  | Op.solvePuzzle step => (solve_puzzle st uid step).2
  | Op.requestPuzzle step => (get_puzzle_data st uid step).2
  | Op.startQuiz ai_res => (start_quiz st uid ai_res).2
  | Op.submitQuiz quiz_id answers step =>
      (submit_quiz st uid quiz_id answers step).2
  | Op.rebootPuzzle step => reboot_puzzle st uid step
  | Op.resetProgress => reset_progress st uid

/-- Store of one user (id 0) holding the default Progression State
`current_gate=1, current_cycle=1` and an empty ledger. -/
def init_store : Store :=
  { states := [(0, defaultGameState)], puzzle_logs := [], quiz_logs := [],
    next_quiz_id := 1 }

/-- A store with no rows at all: a fresh user before any operation. -/
def fresh_store : Store :=
  { states := [], puzzle_logs := [], quiz_logs := [], next_quiz_id := 1 }

/-- Run a sequence of operations of user 0. -/
def run_ops (st : Store) (ops : List Op) : Store :=
  ops.foldl (apply_op 0) st

/-- The stores reachable from `init_store` by engine operations of
user 0. -/
inductive Reachable : Store → Prop where
  | init : Reachable init_store
  | step {st : Store} : Reachable st → (op : Op) → Reachable (apply_op 0 st op)

/-! Concrete stores, traces and rows the theorems below refer to. -/

/-- Lower bounds every stored Progression State row satisfies. -/
def statesOK (st : Store) : Prop :=
  ∀ p ∈ st.states, 1 ≤ p.2.current_step ∧ 1 ≤ p.2.current_cycle

/-- Solving the six gates in order, each at its own turn. -/
def six_solves : List Op :=
  [Op.solvePuzzle 1, Op.solvePuzzle 2, Op.solvePuzzle 3,
   Op.solvePuzzle 4, Op.solvePuzzle 5, Op.solvePuzzle 6]

def overflow_store : Store := run_ops init_store six_solves

/-- A quiz row owned by user 2. -/
def other_user_quiz : QuizLog :=
  { id := 1, user_id := 2, cycle := 1, questions := fallback, score := 0 }

def c3_store : Store :=
  { states := [(1, defaultGameState)], puzzle_logs := [],
    quiz_logs := [other_user_quiz], next_quiz_id := 2 }

/-- A well-formed question whose correct option is index 0. -/
def zero_index_question : Question :=
  { question := "Which option comes first?"
    options := ["A", "B", "C", "D"]
    correct_index := some 0, answer := none }

def c4_quiz : QuizLog :=
  { id := 1
    user_id := 1
    cycle := 1
    questions := [zero_index_question, zero_index_question,
      zero_index_question, zero_index_question, zero_index_question]
    score := 0 }

def c4_store : Store :=
  { states := [(1, defaultGameState)], puzzle_logs := [],
    quiz_logs := [c4_quiz], next_quiz_id := 2 }

/-- The row get_puzzle_data persists on a first read of an unlocked
gate with no stored attempt. -/
def created_puzzle_log (st : Store) (uid step : Int) : PuzzleLog :=
  { user_id := uid
    cycle := (get_or_create_game_state st uid).1.current_cycle
    step := step
    puzzle_type := (generate_puzzle_data step (get_or_create_game_state st uid).1.current_cycle).1
    puzzle_data := (generate_puzzle_data step (get_or_create_game_state st uid).1.current_cycle).2
    solved := false }

def w8_store : Store := (get_puzzle_data init_store 0 1).2

def c10_ops : List Op := [Op.solvePuzzle 2, Op.solvePuzzle 1]

/-- A reachable store whose gate 2 is unlocked and holds an attempt row
lazily created by solve_puzzle, with the empty payload. -/
def c10_store : Store := run_ops init_store c10_ops

def w10_store : Store := (get_puzzle_data init_store 0 1).2


/-! Supporting lemmas about the list operations that embed the queries. -/

theorem mem_updateFirst {α : Type} {p : α → Bool} {f : α → α} :
    ∀ {l : List α} {x : α}, x ∈ updateFirst p f l → x ∈ l ∨ ∃ y ∈ l, x = f y := by
  intro l
  induction l with
  | nil => intro x hx; simp [updateFirst] at hx
  | cons a as ih =>
      intro x hx
      by_cases hp : p a = true
      · simp [updateFirst, hp] at hx
        rcases hx with hx | hx
        · exact Or.inr ⟨a, List.mem_cons_self a as, hx⟩
        · exact Or.inl (List.mem_cons_of_mem a hx)
      · simp [updateFirst, hp] at hx
        rcases hx with hx | hx
        · exact Or.inl (hx ▸ List.mem_cons_self a as)
        · rcases ih hx with h | ⟨y, hy, hxy⟩
          · exact Or.inl (List.mem_cons_of_mem a h)
          · exact Or.inr ⟨y, List.mem_cons_of_mem a hy, hxy⟩

theorem find?_updateFirst {α : Type} {p : α → Bool} {f : α → α}
    (hpf : ∀ x, p x = true → p (f x) = true) :
    ∀ {l : List α} {x : α}, l.find? p = some x →
      (updateFirst p f l).find? p = some (f x) := by
  intro l
  induction l with
  | nil => intro x hx; simp at hx
  | cons a as ih =>
      intro x hx
      by_cases hp : p a = true
      · rw [List.find?_cons_of_pos _ hp] at hx
        cases hx
        rw [updateFirst, if_pos hp, List.find?_cons_of_pos _ (hpf a hp)]
      · rw [List.find?_cons_of_neg _ hp] at hx
        rw [updateFirst, if_neg hp, List.find?_cons_of_neg _ hp]
        exact ih hx

theorem find?_append_none {α : Type} {p : α → Bool} {l₁ : List α} (l₂ : List α)
    (h : l₁.find? p = none) : (l₁ ++ l₂).find? p = l₂.find? p := by
  induction l₁ with
  | nil => simp
  | cons a as ih =>
      by_cases hp : p a = true
      · rw [List.find?_cons_of_pos _ hp] at h; cases h
      · rw [List.find?_cons_of_neg _ hp] at h
        rw [List.cons_append, List.find?_cons_of_neg _ hp]
        exact ih h

theorem eraseP_append_none {α : Type} {p : α → Bool} {l₁ : List α} (l₂ : List α)
    (h : l₁.find? p = none) : (l₁ ++ l₂).eraseP p = l₁ ++ l₂.eraseP p := by
  induction l₁ with
  | nil => simp
  | cons a as ih =>
      by_cases hp : p a = true
      · rw [List.find?_cons_of_pos _ hp] at h; cases h
      · rw [List.find?_cons_of_neg _ hp] at h
        rw [List.cons_append, List.eraseP_cons_of_neg hp, List.cons_append, ih h]

/-! Supporting lemmas about the lazy creation of the Progression State. -/

theorem get_or_create_of_some {st : Store} {uid : Int} {s : GameState}
    (h : findState st uid = some s) :
    get_or_create_game_state st uid = (s, st) := by
  simp [get_or_create_game_state, h]

theorem findState_get_or_create (st : Store) (uid : Int) :
    findState (get_or_create_game_state st uid).2 uid =
      some (get_or_create_game_state st uid).1 := by
  rcases h : findState st uid with _ | s
  · have hfind : st.states.find? (fun p => p.1 == uid) = none := by
      simpa [findState] using h
    simp only [get_or_create_game_state, h]
    simp [findState, find?_append_none _ hfind]
  · simp [get_or_create_game_state, h]

theorem get_or_create_frame (st : Store) (uid : Int) :
    (get_or_create_game_state st uid).2.puzzle_logs = st.puzzle_logs ∧
    (get_or_create_game_state st uid).2.quiz_logs = st.quiz_logs ∧
    (get_or_create_game_state st uid).2.next_quiz_id = st.next_quiz_id := by
  rcases h : findState st uid with _ | s <;>
    simp [get_or_create_game_state, h]

theorem findState_updateFirst_state {st : Store} {uid : Int}
    {pr : Int × GameState}
    (hpr : st.states.find? (fun p => p.1 == uid) = some pr) (s' : GameState) :
    (updateFirst (fun p => p.1 == uid) (fun p => (p.1, s')) st.states).find?
      (fun p => p.1 == uid) = some (pr.1, s') :=
  find?_updateFirst (p := fun p : Int × GameState => p.1 == uid)
    (f := fun p : Int × GameState => (p.1, s')) (fun _ hx => hx) hpr

theorem findState_some_find? {st : Store} {uid : Int} {s : GameState}
    (h : findState st uid = some s) :
    ∃ pr, st.states.find? (fun p => p.1 == uid) = some pr ∧ pr.2 = s := by
  rcases hf : st.states.find? (fun p => p.1 == uid) with _ | pr
  · simp [findState, hf] at h
  · exact ⟨pr, hf, by simpa [findState, hf] using h⟩

/-- C1: for a user with an existing Progression State, `solve_puzzle`
increments `current_step` by exactly 1 iff the submitted `step` equals
`current_step` at call time; any other `step` (smaller or larger) leaves
`current_step` unchanged, and `current_cycle` is never touched. -/
theorem solve_puzzle_advance_iff_current_gate (st : Store) (uid step : Int)
    (s : GameState) (h : findState st uid = some s) :
    ∃ s', findState (solve_puzzle st uid step).2 uid = some s' ∧
      (s'.current_step = s.current_step + 1 ↔ step = s.current_step) ∧
      (step ≠ s.current_step → s'.current_step = s.current_step) ∧
      s'.current_cycle = s.current_cycle := by
  obtain ⟨pr, hpr, hpr2⟩ := findState_some_find? h
  simp only [solve_puzzle, h]
  by_cases hc : step = s.current_step
  · subst hc
    refine ⟨{ s with current_step := s.current_step + 1 }, ?_, ?_, ?_, ?_⟩
    · simp [findState, findState_updateFirst_state hpr]
    · simp
    · simp
    · rfl
  · have hbe : (s.current_step == step) = false := by
      simp [beq_iff_eq]
      exact fun e => hc e.symm
    refine ⟨s, ?_, ?_, ?_, ?_⟩
    · simp [hbe, findState, findState_updateFirst_state hpr]
    · simp [hc]
    · intro _; rfl
    · rfl

/-- Witness for C1 at the initial store: user 0 has the default state,
and solving step 1 advances the gate. -/
theorem solve_puzzle_advance_iff_current_gate_witness :
    ∃ s', findState (solve_puzzle init_store 0 1).2 0 = some s' ∧
      (s'.current_step = defaultGameState.current_step + 1 ↔
        (1 : Int) = defaultGameState.current_step) ∧
      ((1 : Int) ≠ defaultGameState.current_step →
        s'.current_step = defaultGameState.current_step) ∧
      s'.current_cycle = defaultGameState.current_cycle :=
  solve_puzzle_advance_iff_current_gate init_store 0 1 defaultGameState rfl

/-! Reachability invariant machinery for C2. -/

theorem statesOK_get_or_create (st : Store) (uid : Int) (h : statesOK st) :
    statesOK (get_or_create_game_state st uid).2 := by
  rcases hf : findState st uid with _ | s
  · intro p hp
    simp only [get_or_create_game_state, hf] at hp
    rcases List.mem_append.mp hp with hp | hp
    · exact h p hp
    · have hpd : p = (uid, defaultGameState) := by simpa using hp
      subst hpd
      exact ⟨le_refl 1, le_refl 1⟩
  · simpa [get_or_create_game_state, hf] using h

theorem statesOK_apply_op (uid : Int) {st : Store} (h : statesOK st) (op : Op) :
    statesOK (apply_op uid st op) := by
  cases op with
  | solvePuzzle step =>
      rcases hf : findState st uid with _ | s
      · simpa [apply_op, solve_puzzle, hf] using h
      · obtain ⟨pr, hpr, hpr2⟩ := findState_some_find? hf
        have hs : 1 ≤ s.current_step ∧ 1 ≤ s.current_cycle := by
          have hm := h pr (List.mem_of_find?_eq_some hpr)
          rwa [hpr2] at hm
        intro p hp
        simp only [apply_op, solve_puzzle, hf] at hp
        rcases mem_updateFirst hp with hmem | ⟨y, hy, rfl⟩
        · exact h p hmem
        · constructor
          · by_cases hc : (s.current_step == step) = true <;> simp [hc] <;> omega
          · by_cases hc : (s.current_step == step) = true <;> simp [hc] <;> omega
  | requestPuzzle step =>
      have h1 := statesOK_get_or_create st uid h
      intro p hp
      simp only [apply_op, get_puzzle_data] at hp
      by_cases hgt : step > (get_or_create_game_state st uid).1.current_step
      · rw [if_pos hgt] at hp
        exact h1 p hp
      · rw [if_neg hgt] at hp
        rcases hl : findPuzzleLog (get_or_create_game_state st uid).2 uid
            (get_or_create_game_state st uid).1.current_cycle step with _ | log <;>
          [skip; skip] <;> rw [hl] at hp <;> exact h1 p hp
  | startQuiz ai_res =>
      exact statesOK_get_or_create st uid h
  | submitQuiz quiz_id answers step =>
      rcases hq : findQuizLog st quiz_id with _ | quiz
      · simpa [apply_op, submit_quiz, hq] using h
      · rcases hsc : quiz_score quiz.questions answers with _ | score
        · simpa [apply_op, submit_quiz, hq, hsc] using h
        · have h2 := statesOK_get_or_create
            { st with quiz_logs := updateFirst (fun q => q.id == quiz_id) (fun q => { q with score := score }) st.quiz_logs }
            uid h
          simpa [apply_op, submit_quiz, hq, hsc] using h2
  | rebootPuzzle step =>
      rcases hl : findPuzzleLog (get_or_create_game_state st uid).2 uid
          (get_or_create_game_state st uid).1.current_cycle step with _ | log <;>
        simpa [apply_op, reboot_puzzle, hl] using statesOK_get_or_create st uid h
  | resetProgress =>
      have h1 := statesOK_get_or_create st uid h
      intro p hp
      simp only [apply_op, reset_progress] at hp
      rcases mem_updateFirst hp with hmem | ⟨y, hy, rfl⟩
      · exact h1 p hmem
      · exact ⟨le_refl 1, le_refl 1⟩

/-- C2 amended: every reachable store keeps `current_step ≥ 1` and
`current_cycle ≥ 1` for every stored Progression State; the upper bound
6 of the original claim fails (see the counterexample), because
`solve_puzzle` increments without any range check on the gate. -/
theorem reachable_state_lower_bounds (st : Store) (h : Reachable st) :
    ∀ p ∈ st.states, 1 ≤ p.2.current_step ∧ 1 ≤ p.2.current_cycle := by
  induction h with
  | init =>
      intro p hp
      have hpd : p = (0, defaultGameState) := by simpa [init_store] using hp
      subst hpd
      exact ⟨le_refl 1, le_refl 1⟩
  | step h op ih =>
      exact statesOK_apply_op 0 ih op

/-- Witness for C2 amended at the initial store. -/
theorem reachable_state_lower_bounds_witness :
    1 ≤ ((0 : Int), defaultGameState).2.current_step ∧
    1 ≤ ((0 : Int), defaultGameState).2.current_cycle :=
  reachable_state_lower_bounds init_store Reachable.init
    (0, defaultGameState) (by simp [init_store])

theorem reachable_run_ops {st : Store} (h : Reachable st) :
    ∀ ops : List Op, Reachable (run_ops st ops) := by
  intro ops
  induction ops generalizing st with
  | nil => simpa [run_ops] using h
  | cons op rest ih =>
      have hr := ih (Reachable.step h op)
      simpa [run_ops] using hr

/-- C2 counterexample: after legitimately solving gates 1 through 6,
the reachable Progression State holds `current_gate = 7`, outside the
claimed range [1,6]. -/
theorem reachable_gate_seven :
    Reachable overflow_store ∧
    (findState overflow_store 0).map GameState.current_step = some 7 ∧
    ¬ ((7 : Int) ≤ 6) :=
  ⟨reachable_run_ops Reachable.init six_solves, rfl, by decide⟩

/-! C3: ownership is not checked by submit_quiz. -/

/-- C3 counterexample: quiz 1 belongs to user 2, yet user 1's
submission is accepted (not refused as NotFound) and overwrites user 2's
stored score: `submit_quiz` looks the row up by id alone and never
compares `quiz.user_id` with the caller. -/
theorem submit_quiz_overwrites_other_user :
    (findQuizLog c3_store 1).map QuizLog.user_id = some 2 ∧
    (submit_quiz c3_store 1 1 [1, 1, 2, 1, 1] none).1 =
      SubmitResult.ok true 50 "puzzle.html?step=1" ∧
    (findQuizLog (submit_quiz c3_store 1 1 [1, 1, 2, 1, 1] none).2 1).map
      QuizLog.score = some 50 :=
  ⟨rfl, rfl, rfl⟩

/-- C3 amended: `submit_quiz` fails (the `{"success": False}` body)
exactly when no quiz row with the given id exists, and then nothing is
mutated; the owner of an existing row is never compared with the
caller, so a submission against another user's quiz id proceeds. -/
theorem submit_quiz_failure_iff_absent (st : Store) (uid quiz_id : Int)
    (answers : List Int) (step : Option Int) :
    ((submit_quiz st uid quiz_id answers step).1 = SubmitResult.notFound ↔
      findQuizLog st quiz_id = none) ∧
    (findQuizLog st quiz_id = none →
      (submit_quiz st uid quiz_id answers step).2 = st) := by
  rcases hq : findQuizLog st quiz_id with _ | quiz
  · simp [submit_quiz, hq]
  · rcases hsc : quiz_score quiz.questions answers with _ | score <;>
      simp [submit_quiz, hq, hsc]

/-! C4: the falsy-`or` scoring bug on a zero correct index. -/

/-- C4 code bug: every answer equals the stored `correct_index` (0), yet
the score is 0 and the quiz fails, because
`q.get('correct_index') or q.get('answer')` discards the falsy value 0
and falls back to the absent `answer` key. -/
theorem correct_index_zero_scores_zero :
    zero_index_question.correct_index = some 0 ∧
    answer_matches 0 zero_index_question = false ∧
    quiz_score [zero_index_question, zero_index_question, zero_index_question,
      zero_index_question, zero_index_question] [0, 0, 0, 0, 0] = some 0 ∧
    (submit_quiz c4_store 1 1 [0, 0, 0, 0, 0] none).1 =
      SubmitResult.ok false 0 "quiz_setup.html?step=1" :=
  ⟨rfl, rfl, rfl, rfl⟩

/-! C5: the gate lock of requestPuzzle. -/

theorem get_puzzle_data_states (st : Store) (uid step : Int) :
    (get_puzzle_data st uid step).2.states =
      (get_or_create_game_state st uid).2.states := by
  by_cases hgt : step > (get_or_create_game_state st uid).1.current_step
  · simp [get_puzzle_data, hgt]
  · rcases hl : findPuzzleLog (get_or_create_game_state st uid).2 uid
        (get_or_create_game_state st uid).1.current_cycle step with _ | log <;>
      simp [get_puzzle_data, hgt, hl]

/-- C5: `get_puzzle_data` refuses with Gate Locked exactly when the
requested step exceeds `current_step` of the (lazily created)
Progression State; when `step ≤ current_step` it returns a puzzle kind
and payload; and it never modifies any Progression State — in
particular an existing state of the caller is returned unchanged. -/
theorem request_puzzle_gate_locked_iff (st : Store) (uid step : Int) :
    ((get_puzzle_data st uid step).1 = PuzzleResult.gateLocked ↔
      step > (get_or_create_game_state st uid).1.current_step) ∧
    (step ≤ (get_or_create_game_state st uid).1.current_step →
      ∃ pd ty, (get_puzzle_data st uid step).1 = PuzzleResult.ok pd ty step) ∧
    (get_puzzle_data st uid step).2.states =
      (get_or_create_game_state st uid).2.states ∧
    (∀ s, findState st uid = some s →
      findState (get_puzzle_data st uid step).2 uid = some s) := by
  refine ⟨?_, ?_, get_puzzle_data_states st uid step, ?_⟩
  · by_cases hgt : step > (get_or_create_game_state st uid).1.current_step
    · simp [get_puzzle_data, hgt]
    · rcases hl : findPuzzleLog (get_or_create_game_state st uid).2 uid
          (get_or_create_game_state st uid).1.current_cycle step with _ | log <;>
        simp [get_puzzle_data, hgt, hl]
  · intro hle
    have hgt : ¬ step > (get_or_create_game_state st uid).1.current_step :=
      not_lt.mpr hle
    rcases hl : findPuzzleLog (get_or_create_game_state st uid).2 uid
        (get_or_create_game_state st uid).1.current_cycle step with _ | log
    · exact ⟨(generate_puzzle_data step
          (get_or_create_game_state st uid).1.current_cycle).2,
        (generate_puzzle_data step
          (get_or_create_game_state st uid).1.current_cycle).1,
        by simp [get_puzzle_data, hgt, hl]⟩
    · exact ⟨log.puzzle_data, log.puzzle_type,
        by simp [get_puzzle_data, hgt, hl]⟩
  · intro s hs
    have h1 := get_or_create_of_some hs
    have h2 := get_puzzle_data_states st uid step
    rw [h1] at h2
    simpa [findState, h2] using hs

/-! C6: solve_puzzle does not lazily create the Progression State. -/

/-- C6 code bug: a fresh user (no GameState row) gets an uncaught
exception (500) from `solve_puzzle`, which queries the state with a bare
`.first()` and dereferences the missing row, while the other operations
(here `reset_progress` and `get_puzzle_data`) lazily create the default
state and succeed. -/
theorem solve_puzzle_crashes_without_state :
    findState fresh_store 0 = none ∧
    (solve_puzzle fresh_store 0 1).1 = SolveResult.serverError ∧
    (solve_puzzle fresh_store 0 1).2 = fresh_store ∧
    findState (reset_progress fresh_store 0) 0 = some defaultGameState ∧
    (get_puzzle_data fresh_store 0 1).1 ≠ PuzzleResult.gateLocked :=
  ⟨rfl, rfl, rfl, rfl, by decide⟩

/-! C7: startQuiz always persists a brand-new five-question attempt. -/

/-- C7: whatever the content generator returned (including failure,
`ai_res = none`, and short or oversized lists), the stored question list
has exactly 5 entries; `start_quiz` always appends a brand-new QuizLog
row with `score = 0` and a fresh id — existing rows are never reused or
touched — and returns the new id. Generator failure is never surfaced:
the operation has no error outcome at all. -/
theorem start_quiz_new_attempt_five_questions (st : Store) (uid : Int)
    (ai_res : Option (List Question)) :
    (generate_quiz ai_res).length = 5 ∧
    (start_quiz st uid ai_res).2.quiz_logs =
      st.quiz_logs ++ [{ id := st.next_quiz_id, user_id := uid, cycle := (get_or_create_game_state st uid).1.current_cycle, questions := generate_quiz ai_res, score := 0 }] ∧
    (start_quiz st uid ai_res).1 = st.next_quiz_id ∧
    (start_quiz st uid ai_res).2.next_quiz_id = st.next_quiz_id + 1 := by
  obtain ⟨hp, hq, hn⟩ := get_or_create_frame st uid
  refine ⟨?_, ?_, ?_, ?_⟩
  · rcases ai_res with _ | data
    · rfl
    · by_cases h5 : data.length ≥ 5
      · simp [generate_quiz, h5, List.length_take]
      · simp [generate_quiz, h5, fallback]
  · simp [start_quiz, hq, hn]
  · simp [start_quiz, hn]
  · simp [start_quiz, hn]

/-! C8 and C10: computation lemmas for the two branches of
get_puzzle_data, the idempotent re-read and the reboot round trip. -/

theorem get_puzzle_data_found (st : Store) (uid step : Int) {log : PuzzleLog}
    (hgt : ¬ step > (get_or_create_game_state st uid).1.current_step)
    (hl : findPuzzleLog (get_or_create_game_state st uid).2 uid
      (get_or_create_game_state st uid).1.current_cycle step = some log) :
    get_puzzle_data st uid step =
      (PuzzleResult.ok log.puzzle_data log.puzzle_type step,
       (get_or_create_game_state st uid).2) := by
  simp [get_puzzle_data, hgt, hl]

theorem get_puzzle_data_fresh (st : Store) (uid step : Int)
    (hgt : ¬ step > (get_or_create_game_state st uid).1.current_step)
    (hfresh : findPuzzleLog (get_or_create_game_state st uid).2 uid
      (get_or_create_game_state st uid).1.current_cycle step = none) :
    get_puzzle_data st uid step =
      (PuzzleResult.ok (created_puzzle_log st uid step).puzzle_data
        (created_puzzle_log st uid step).puzzle_type step,
       { (get_or_create_game_state st uid).2 with puzzle_logs := (get_or_create_game_state st uid).2.puzzle_logs ++ [created_puzzle_log st uid step] }) := by
  simp [get_puzzle_data, hgt, hfresh, created_puzzle_log]

/-- C8: when `get_puzzle_data` answers with a payload (the first call
persisting a freshly generated row if none existed), calling it again
on the resulting store returns the identical payload and leaves the
store untouched: the later call re-reads the stored row. -/
theorem request_puzzle_idempotent (st : Store) (uid step : Int)
    (pd : PuzzleData) (ty : String) (st1 : Store)
    (h : get_puzzle_data st uid step = (PuzzleResult.ok pd ty step, st1)) :
    get_puzzle_data st1 uid step = (PuzzleResult.ok pd ty step, st1) := by
  by_cases hgt : step > (get_or_create_game_state st uid).1.current_step
  · simp [get_puzzle_data, hgt] at h
  · rcases hl : findPuzzleLog (get_or_create_game_state st uid).2 uid
        (get_or_create_game_state st uid).1.current_cycle step with _ | log
    · rw [get_puzzle_data_fresh st uid step hgt hl] at h
      rw [Prod.mk.injEq] at h
      obtain ⟨hfst, hsnd⟩ := h
      injection hfst with hpd hty hstep
      subst hpd
      subst hty
      subst hsnd
      have hstate : findState { (get_or_create_game_state st uid).2 with puzzle_logs := (get_or_create_game_state st uid).2.puzzle_logs ++ [created_puzzle_log st uid step] } uid = some (get_or_create_game_state st uid).1 :=
        findState_get_or_create st uid
      have hoc := get_or_create_of_some hstate
      have hnone : (get_or_create_game_state st uid).2.puzzle_logs.find?
          (puzzleKey uid (get_or_create_game_state st uid).1.current_cycle step) = none := by
        simpa [findPuzzleLog] using hl
      have hfindS : findPuzzleLog { (get_or_create_game_state st uid).2 with puzzle_logs := (get_or_create_game_state st uid).2.puzzle_logs ++ [created_puzzle_log st uid step] } uid (get_or_create_game_state st uid).1.current_cycle step = some (created_puzzle_log st uid step) := by
        show ((get_or_create_game_state st uid).2.puzzle_logs ++ [created_puzzle_log st uid step]).find?
          (puzzleKey uid (get_or_create_game_state st uid).1.current_cycle step) = some (created_puzzle_log st uid step)
        rw [find?_append_none _ hnone]
        simp [puzzleKey, created_puzzle_log]
      have hgt2 : ¬ step > (get_or_create_game_state { (get_or_create_game_state st uid).2 with puzzle_logs := (get_or_create_game_state st uid).2.puzzle_logs ++ [created_puzzle_log st uid step] } uid).1.current_step := by
        rw [hoc]; exact hgt
      have hl2 : findPuzzleLog (get_or_create_game_state { (get_or_create_game_state st uid).2 with puzzle_logs := (get_or_create_game_state st uid).2.puzzle_logs ++ [created_puzzle_log st uid step] } uid).2 uid (get_or_create_game_state { (get_or_create_game_state st uid).2 with puzzle_logs := (get_or_create_game_state st uid).2.puzzle_logs ++ [created_puzzle_log st uid step] } uid).1.current_cycle step = some (created_puzzle_log st uid step) := by
        rw [hoc]; exact hfindS
      rw [get_puzzle_data_found _ uid step hgt2 hl2]
      rw [hoc]
    · rw [get_puzzle_data_found st uid step hgt hl] at h
      rw [Prod.mk.injEq] at h
      obtain ⟨hfst, hsnd⟩ := h
      injection hfst with hpd hty hstep
      subst hpd
      subst hty
      subst hsnd
      have hoc := get_or_create_of_some (findState_get_or_create st uid)
      have hgt2 : ¬ step > (get_or_create_game_state (get_or_create_game_state st uid).2 uid).1.current_step := by
        rw [hoc]; exact hgt
      have hl2 : findPuzzleLog (get_or_create_game_state (get_or_create_game_state st uid).2 uid).2 uid (get_or_create_game_state (get_or_create_game_state st uid).2 uid).1.current_cycle step = some log := by
        rw [hoc]; exact hl
      rw [get_puzzle_data_found _ uid step hgt2 hl2]
      rw [hoc]

/-- Witness for C8 at the initial store: the first read of gate 1
creates the attempt, the second read returns it unchanged. -/
theorem request_puzzle_idempotent_witness :
    get_puzzle_data w8_store 0 1 =
      (PuzzleResult.ok (generate_puzzle_data 1 1).2 (generate_puzzle_data 1 1).1 1,
       w8_store) :=
  request_puzzle_idempotent init_store 0 1 (generate_puzzle_data 1 1).2
    (generate_puzzle_data 1 1).1 w8_store rfl

/-- C9: `reset_progress` sets the Progression State pointer to gate 1,
cycle 1 and changes nothing else: the puzzle ledger, the quiz ledger and
the id counter are untouched — no row is deleted and no stored ledger
field is modified. -/
theorem reset_progress_sets_pointer_and_frames_ledger (st : Store) (uid : Int) :
    findState (reset_progress st uid) uid =
      some { current_step := 1, current_cycle := 1 } ∧
    (reset_progress st uid).puzzle_logs = st.puzzle_logs ∧
    (reset_progress st uid).quiz_logs = st.quiz_logs ∧
    (reset_progress st uid).next_quiz_id = st.next_quiz_id := by
  obtain ⟨hp, hq, hn⟩ := get_or_create_frame st uid
  refine ⟨?_, ?_, ?_, ?_⟩
  · obtain ⟨pr, hpr, hpr2⟩ := findState_some_find? (findState_get_or_create st uid)
    simp [reset_progress, findState, findState_updateFirst_state hpr]
  · simp [reset_progress, hp]
  · simp [reset_progress, hq]
  · simp [reset_progress, hn]

/-! C10: the payload is a function of the gate alone, and the reboot
round trip returns the regenerated payload — which differs from the
stored one exactly when the stored row was not generator-produced. -/

/-- C10 counterexample: gate 2 is unlocked and requestPuzzle returns the
stored empty `manual_verification` payload, but after rebootPuzzle the
regenerated payload is the Tower of Hanoi data: the round trip does not
return the payload held before the reboot. -/
theorem reboot_roundtrip_changes_payload :
    Reachable c10_store ∧
    (findState c10_store 0).map GameState.current_step = some 2 ∧
    (get_puzzle_data c10_store 0 2).1 =
      PuzzleResult.ok PuzzleData.empty "manual_verification" 2 ∧
    (get_puzzle_data (reboot_puzzle c10_store 0 2) 0 2).1 =
      PuzzleResult.ok (generate_puzzle_data 2 1).2 "tower-of-hanoi" 2 ∧
    (generate_puzzle_data 2 1).2 ≠ PuzzleData.empty :=
  ⟨reachable_run_ops Reachable.init c10_ops, rfl, rfl, rfl, by decide⟩

/-- C10 amended: the generated payload is a deterministic function of
the gate alone (cycle-independent; Tower of Hanoi with `disks = g + 1`,
`min_moves = 2 ^ (g + 1) - 1`, three rods), and when the payload
returned by `get_puzzle_data` was generator-produced — here: no attempt
row existed before the call — the reboot/request round trip returns
exactly that payload and restores the same store. -/
theorem puzzle_payload_deterministic_roundtrip (st : Store) (uid g c cc : Int)
    (pd : PuzzleData) (ty : String) (st1 : Store)
    (hfresh : findPuzzleLog (get_or_create_game_state st uid).2 uid
      (get_or_create_game_state st uid).1.current_cycle g = none)
    (h : get_puzzle_data st uid g = (PuzzleResult.ok pd ty g, st1)) :
    generate_puzzle_data g c = generate_puzzle_data g cc ∧
    ty = "tower-of-hanoi" ∧
    (∃ d, pd = PuzzleData.hanoi d ∧ d.disks = g + 1 ∧
      d.min_moves = 2 ^ (g + 1).toNat - 1 ∧ d.rods = 3) ∧
    get_puzzle_data (reboot_puzzle st1 uid g) uid g =
      (PuzzleResult.ok pd ty g, st1) := by
  by_cases hgt : g > (get_or_create_game_state st uid).1.current_step
  · simp [get_puzzle_data, hgt] at h
  · rw [get_puzzle_data_fresh st uid g hgt hfresh] at h
    rw [Prod.mk.injEq] at h
    obtain ⟨hfst, hsnd⟩ := h
    injection hfst with hpd hty hstep
    subst hpd
    subst hty
    subst hsnd
    refine ⟨rfl, rfl, ⟨_, rfl, rfl, rfl, rfl⟩, ?_⟩
    have hstate : findState { (get_or_create_game_state st uid).2 with puzzle_logs := (get_or_create_game_state st uid).2.puzzle_logs ++ [created_puzzle_log st uid g] } uid = some (get_or_create_game_state st uid).1 :=
      findState_get_or_create st uid
    have hoc := get_or_create_of_some hstate
    have hnone : (get_or_create_game_state st uid).2.puzzle_logs.find?
        (puzzleKey uid (get_or_create_game_state st uid).1.current_cycle g) = none := by
      simpa [findPuzzleLog] using hfresh
    have hfindS : findPuzzleLog { (get_or_create_game_state st uid).2 with puzzle_logs := (get_or_create_game_state st uid).2.puzzle_logs ++ [created_puzzle_log st uid g] } uid (get_or_create_game_state st uid).1.current_cycle g = some (created_puzzle_log st uid g) := by
      show ((get_or_create_game_state st uid).2.puzzle_logs ++ [created_puzzle_log st uid g]).find?
        (puzzleKey uid (get_or_create_game_state st uid).1.current_cycle g) = some (created_puzzle_log st uid g)
      rw [find?_append_none _ hnone]
      simp [puzzleKey, created_puzzle_log]
    have hkey : puzzleKey uid (get_or_create_game_state st uid).1.current_cycle g (created_puzzle_log st uid g) = true := by
      simp [puzzleKey, created_puzzle_log]
    have hreb : reboot_puzzle { (get_or_create_game_state st uid).2 with puzzle_logs := (get_or_create_game_state st uid).2.puzzle_logs ++ [created_puzzle_log st uid g] } uid g = (get_or_create_game_state st uid).2 := by
      simp only [reboot_puzzle, hoc, hfindS]
      show ({ (get_or_create_game_state st uid).2 with puzzle_logs := ((get_or_create_game_state st uid).2.puzzle_logs ++ [created_puzzle_log st uid g]).eraseP (puzzleKey uid (get_or_create_game_state st uid).1.current_cycle g) } : Store) = (get_or_create_game_state st uid).2
      rw [eraseP_append_none _ hnone, List.eraseP_cons_of_pos hkey]
      simp
    rw [hreb]
    have hoc2 := get_or_create_of_some (findState_get_or_create st uid)
    have hgt2 : ¬ g > (get_or_create_game_state (get_or_create_game_state st uid).2 uid).1.current_step := by
      rw [hoc2]; exact hgt
    have hfresh2 : findPuzzleLog (get_or_create_game_state (get_or_create_game_state st uid).2 uid).2 uid (get_or_create_game_state (get_or_create_game_state st uid).2 uid).1.current_cycle g = none := by
      rw [hoc2]; exact hfresh
    rw [get_puzzle_data_fresh _ uid g hgt2 hfresh2]
    simp [created_puzzle_log, hoc2]

/-- Witness for C10 amended at the initial store and gate 1. -/
theorem puzzle_payload_deterministic_roundtrip_witness :
    generate_puzzle_data 1 1 = generate_puzzle_data 1 2 ∧
    (generate_puzzle_data 1 1).1 = "tower-of-hanoi" ∧
    (∃ d, (generate_puzzle_data 1 1).2 = PuzzleData.hanoi d ∧
      d.disks = (1 : Int) + 1 ∧ d.min_moves = 2 ^ ((1 : Int) + 1).toNat - 1 ∧
      d.rods = 3) ∧
    get_puzzle_data (reboot_puzzle w10_store 0 1) 0 1 =
      (PuzzleResult.ok (generate_puzzle_data 1 1).2 (generate_puzzle_data 1 1).1 1,
       w10_store) :=
  puzzle_payload_deterministic_roundtrip init_store 0 1 1 2
    (generate_puzzle_data 1 1).2 (generate_puzzle_data 1 1).1 w10_store rfl rfl

end VibeInGaming
